import Mathlib

/-
Verification of the attribute/widget binding contract of the panel
repository.  The repository's visible sources are the example notebooks
(src/examples/user_guide/Param.ipynb and the widgets notebook) plus CI
configuration; the param/panel library code that implements the contract is
not present, so the operational semantics below are modelled from the
specification, while the concrete attribute schemas are translated from the
notebook's code cells.
-/

namespace Panel

/-- Exact rational constants written as integer fractions.  All numeric
literals of the notebook (7.5, 8.2, 3.14, ...) are decimal and are embedded
exactly; every constant in this file has a positive denominator, and the
comparison below is the usual cross-multiplication, which is correct under
that convention. -/
structure Frac where
  num : Int
  den : Int
deriving DecidableEq

/-- Order on fractions by cross multiplication (valid for positive
denominators, which every constant in this development has). -/
def Frac.le (a b : Frac) : Bool :=
  decide (a.num * b.den ≤ b.num * a.den)

/-- Modelled from the spec: attribute values.  The claims under check only
involve numeric and string values, so the carrier has those two shapes. -/
inductive Value where
  | num (q : Frac)
  | str (s : String)
deriving DecidableEq

/-- Modelled from the spec: declared domains — unconstrained values
(param.Parameter), bounded numbers (param.Number / param.Integer), strings
(param.String) and enumerated choices (param.ObjectSelector). -/
inductive Domain where
  | any
  | number (lo : Option Frac) (hi : Option Frac)
  | strType
  | choice (options : List Value)
deriving DecidableEq

/-- Modelled from the spec: the single validation step both directions go
through — range check, membership check, type check. -/
def Domain.validate : Domain → Value → Bool
  | Domain.any, _ => true
  | Domain.number lo hi, Value.num q =>
      (match lo with
       | none => true
       | some l => Frac.le l q) &&
      (match hi with
       | none => true
       | some h => Frac.le q h)
  | Domain.number _ _, _ => false
  | Domain.strType, Value.str _ => true
  | Domain.strType, _ => false
  | Domain.choice opts, v => opts.any (fun o => decide (o = v))

/-- Modelled from the spec: one attribute declaration — name, domain,
default, constant flag and display-priority hint.  A declaration that does
not state a precedence is embedded with precedence 1 (positive, shown). -/
structure Attr where
  name : String
  domain : Domain
  default : Value
  constant : Bool
  precedence : Frac
deriving DecidableEq

/-- Look an attribute declaration up by name in a schema. -/
def findAttr (schema : List Attr) (n : String) : Option Attr :=
  match schema with
  | [] => none
  | a :: t => if a.name = n then some a else findAttr t n

/-- Modelled from the spec: subclass schemas are the base schema merged
with local overrides, the override winning. -/
def mergeSchema (base ov : List Attr) : List Attr :=
  ov ++ base.filter (fun a => (findAttr ov a.name).isNone)

/-- Modelled from the spec: an instance of a declarative class — its schema
together with the current value of each attribute. -/
structure Obj where
  schema : List Attr
  values : List (String × Value)
deriving DecidableEq

/-- Construction initialises every declared attribute to its default. -/
def mkObj (schema : List Attr) : Obj :=
  { schema := schema, values := schema.map (fun a => (a.name, a.default)) }

/-- Look a stored value up by attribute name. -/
def lookupValue (vs : List (String × Value)) (n : String) : Option Value :=
  match vs with
  | [] => none
  | p :: t => if p.1 = n then some p.2 else lookupValue t n

/-- The get accessor. -/
def getValue (o : Obj) (n : String) : Option Value :=
  lookupValue o.values n

/-- Replace the stored value of one attribute, leaving the others alone. -/
def setPair (vs : List (String × Value)) (n : String) (v : Value) :
    List (String × Value) :=
  match vs with
  | [] => []
  | p :: t => (if p.1 = n then (p.1, v) else p) :: setPair t n v

/-- Modelled from the spec: the error taxonomy of a set — unknown
attribute, constant violation, domain violation. -/
inductive SetError where
  | unknown
  | constViolation
  | domainViolation
deriving DecidableEq

/-- Modelled from the spec: the validated set.  Internal result: either the
updated instance or the reason the write is rejected. -/
def trySet (o : Obj) (n : String) (v : Value) : Except SetError Obj :=
  match findAttr o.schema n with
  | none => Except.error SetError.unknown
  | some a =>
      if a.constant then Except.error SetError.constViolation
      else if a.domain.validate v then
        Except.ok { o with values := setPair o.values n v }
      else Except.error SetError.domainViolation

/-- Modelled from the spec: the set accessor seen by callers.  Failures are
handled locally: the accessor always returns, yielding the unchanged
instance and a false flag on rejection. -/
def setAttr (o : Obj) (n : String) (v : Value) : Obj × Bool :=
  match trySet o n v with
  | Except.ok o2 => (o2, true)
  | Except.error _ => (o, false)

/-- Modelled from the spec: a watcher — a registration of interest in one
attribute, holding a callback identified by a number. -/
structure Watcher where
  attr : String
  id : Nat
deriving DecidableEq

/-- Modelled from the spec: an instance together with its watchers and the
log of callback invocations.  Each invocation record names the callback,
the attribute and the new value it was called with; the log order is the
synchronous execution order. -/
structure Sys where
  obj : Obj
  watchers : List Watcher
  log : List (Nat × String × Value)
deriving DecidableEq

/-- A system as built at construction time: defaults, no watchers, no
invocations yet. -/
def mkSys (schema : List Attr) : Sys :=
  { obj := mkObj schema, watchers := [], log := [] }

/-- Modelled from the spec: subscribe(attribute_name, callback). -/
def subscribe (s : Sys) (n : String) (i : Nat) : Sys :=
  { s with watchers := s.watchers ++ [{ attr := n, id := i }] }

/-- The invocation records produced by one successful set: one record per
watcher of the attribute, in registration order, carrying the new value. -/
def notify (ws : List Watcher) (n : String) (v : Value) :
    List (Nat × String × Value) :=
  match ws with
  | [] => []
  | u :: t => if u.attr = n then (u.id, n, v) :: notify t n v else notify t n v

/-- Modelled from the spec: a set on the live system.  A successful set
updates the stored value and synchronously invokes every watcher of the
attribute with the new value; a rejected set changes nothing and invokes
nobody. -/
def setSys (s : Sys) (n : String) (v : Value) : Sys × Bool :=
  match trySet s.obj n v with
  | Except.ok o2 =>
      ({ s with obj := o2, log := s.log ++ notify s.watchers n v }, true)
  | Except.error _ => (s, false)

/-- Apply a sequence of attempted sets in order. -/
def applySets (s : Sys) (ops : List (String × Value)) : Sys :=
  match ops with
  | [] => s
  | op :: t => applySets (setSys s op.1 op.2).1 t

/-- Modelled from the spec: a widget — a cached copy of one attribute's
value plus presentation metadata. -/
structure Widget where
  display : Value
  width : Option Nat
deriving DecidableEq

/-- Modelled from the spec: the bound state of the binding layer — a system
and one widget mirroring one named attribute. -/
structure Bound where
  sys : Sys
  attrName : String
  widget : Widget
deriving DecidableEq

/-- Modelled from the spec: the common pipeline of both directions.  The
candidate value goes through the validated set; on success the widget's
displayed value follows, on rejection the whole previous state is
retained — no partial updates. -/
def pushValue (b : Bound) (v : Value) : Bound :=
  let r := setSys b.sys b.attrName v
  if r.2 then
    { b with sys := r.1, widget := { b.widget with display := v } }
  else b

/-- Modelled from the spec: a user-initiated edit through the widget. -/
def userEdit (b : Bound) (v : Value) : Bound :=
  pushValue b v

/-- Modelled from the spec: a programmatic set on the bound attribute. -/
def progSet (b : Bound) (v : Value) : Bound :=
  pushValue b v

/-- The convergence invariant: the widget's displayed value is the bound
attribute's stored value. -/
def synced (b : Bound) : Prop :=
  getValue b.sys.obj b.attrName = some b.widget.display

/-- Modelled from the spec: a layout container — an ordered sequence of
widgets with shared presentation options, and nothing else. -/
structure WidgetBox where
  objects : List Widget
  width : Option Nat
deriving DecidableEq

/-- Construct a layout container from its children and a shared width. -/
def mkWidgetBox (children : List Widget) (w : Option Nat) : WidgetBox :=
  { objects := children, width := w }

/-- A member inherits the container's shared presentation option unless it
overrides it locally. -/
def effectiveWidth (box : WidgetBox) (m : Widget) : Option Nat :=
  match m.width with
  | some w => some w
  | none => box.width

/-- Modelled from the spec: the automatic widget display generates widgets
for the attributes whose precedence is non-negative and omits the rest. -/
def displayedAttrs (schema : List Attr) : List Attr :=
  schema.filter (fun a => decide (0 ≤ a.precedence.num))

/-- Modelled from the spec: an action-holding instance.  The example class
stores a timestamps list and an action attribute whose callable appends one
timestamp to it; the callable is stored as a field so that triggering reads
whatever callable the attribute currently holds. -/
structure ExampleInst where
  timestamps : List Nat
  recordTimestamp : Nat → List Nat → List Nat

/-- The callable declared in the notebook for record_timestamp: append the
current time to the owning instance's timestamps list. -/
def recordTimestampFn (now : Nat) (ts : List Nat) : List Nat :=
  ts ++ [now]

/-- Modelled from the spec: triggering the action invokes the stored
callable exactly once on the owning instance's state; the stored callable
itself is carried over unchanged. -/
def triggerAction (now : Nat) (x : ExampleInst) : ExampleInst :=
  { x with timestamps := x.recordTimestamp now x.timestamps }

/-
Concrete schemas translated from the notebook's code cells
(src/examples/user_guide/Param.ipynb).  The Range, Dict, Boolean, Color,
Date, function-valued and file selector attributes are not needed by any
claim and are omitted; numeric literals are embedded as exact decimal
fractions, and param.Integer bounds are embedded as numeric bounds.
-/

/-- The declaration x = param.Parameter(default=3.14). -/
def xAttr : Attr :=
  { name := "x", domain := Domain.any,
    default := Value.num { num := 314, den := 100 },
    constant := false, precedence := { num := 1, den := 1 } }

/-- The declaration y = param.Parameter(default="Not editable", constant=True). -/
def yAttr : Attr :=
  { name := "y", domain := Domain.any,
    default := Value.str "Not editable",
    constant := true, precedence := { num := 1, den := 1 } }

/-- The declaration num_int = param.Integer(50000, bounds=(-200, 100000)). -/
def numIntAttr : Attr :=
  { name := "num_int",
    domain := Domain.number (some { num := -200, den := 1 })
      (some { num := 100000, den := 1 }),
    default := Value.num { num := 50000, den := 1 },
    constant := false, precedence := { num := 1, den := 1 } }

/-- The declaration float_with_hard_bounds = param.Number(8.2, bounds=(7.5, 10)). -/
def floatHardAttr : Attr :=
  { name := "float_with_hard_bounds",
    domain := Domain.number (some { num := 75, den := 10 })
      (some { num := 10, den := 1 }),
    default := Value.num { num := 82, den := 10 },
    constant := false, precedence := { num := 1, den := 1 } }

/-- The declaration unbounded_float = param.Number(30.01, precedence=0). -/
def unboundedFloatAttr : Attr :=
  { name := "unbounded_float", domain := Domain.number none none,
    default := Value.num { num := 3001, den := 100 },
    constant := false, precedence := { num := 0, den := 1 } }

/-- The declaration hidden_parameter = param.Number(2.718, precedence=-1). -/
def hiddenParameterAttr : Attr :=
  { name := "hidden_parameter", domain := Domain.number none none,
    default := Value.num { num := 2718, den := 1000 },
    constant := false, precedence := { num := -1, den := 1 } }

/-- The declaration select_string = param.ObjectSelector(default="yellow",
objects=["red","yellow","green"]). -/
def selectStringAttr : Attr :=
  { name := "select_string",
    domain := Domain.choice
      [Value.str "red", Value.str "yellow", Value.str "green"],
    default := Value.str "yellow",
    constant := false, precedence := { num := 1, den := 1 } }

/-- The BaseClass declarations of the notebook. -/
def baseClassSchema : List Attr :=
  [ xAttr,
    yAttr,
    { name := "string_value", domain := Domain.strType,
      default := Value.str "str",
      constant := false, precedence := { num := 1, den := 1 } },
    numIntAttr,
    { name := "unbounded_int", domain := Domain.number none none,
      default := Value.num { num := 23, den := 1 },
      constant := false, precedence := { num := 1, den := 1 } },
    floatHardAttr,
    { name := "float_with_soft_bounds",
      domain := Domain.number (some { num := 0, den := 1 }) none,
      default := Value.num { num := 5, den := 10 },
      constant := false, precedence := { num := 1, den := 1 } },
    unboundedFloatAttr,
    hiddenParameterAttr ]

/-- The declarations Example adds to BaseClass in the notebook. -/
def exampleExtra : List Attr :=
  [ selectStringAttr ]

/-- The schema of the Example subclass: BaseClass merged with the local
declarations. -/
def exampleSchema : List Attr :=
  mergeSchema baseClassSchema exampleExtra

/-- A freshly constructed Example system bound to the select_string widget,
displaying the default. -/
def selectBound : Bound :=
  { sys := mkSys exampleSchema,
    attrName := "select_string",
    widget := { display := Value.str "yellow", width := none } }

/-- A freshly constructed Example system bound to a widget for the bounded
float attribute, displaying the default 8.2. -/
def floatBound : Bound :=
  { sys := mkSys exampleSchema,
    attrName := "float_with_hard_bounds",
    widget := { display := Value.num { num := 82, den := 10 }, width := none } }

/-- The TextInput widget of the widgets notebook, value "A string", no
local width override. -/
def textInputW : Widget :=
  { display := Value.str "A string", width := none }

/-- The FloatSlider widget of the widgets notebook, with its own width of
200. -/
def sliderW : Widget :=
  { display := Value.num { num := 0, den := 1 }, width := some 200 }

/-- Number of occurrences of an element in a list. -/
def countOcc {α : Type} [DecidableEq α] (l : List α) (x : α) : Nat :=
  l.countP (fun y => decide (y = x))

/-- Updating one attribute's stored value makes its lookup return the new
value exactly when the attribute had a stored value before. -/
theorem lookup_setPair_same (vs : List (String × Value)) (n : String)
    (v : Value) :
    lookupValue (setPair vs n v) n = (lookupValue vs n).map (fun _ => v) := by
  induction vs with
  | nil => rfl
  | cons p t ih =>
    by_cases h : p.1 = n
    · simp [setPair, lookupValue, h]
    · simp [setPair, lookupValue, h, ih]

/-- Updating one attribute's stored value leaves every other attribute's
stored value untouched. -/
theorem lookup_setPair_ne (vs : List (String × Value)) (n m : String)
    (v : Value) (hnm : m ≠ n) :
    lookupValue (setPair vs n v) m = lookupValue vs m := by
  induction vs with
  | nil => rfl
  | cons p t ih =>
    by_cases h : p.1 = n
    · simp [setPair, lookupValue, h, Ne.symm hnm, ih]
    · simp [setPair, lookupValue, h, ih]

/-- A successful internal set only rewrites the stored values; the schema
is carried over unchanged, and the values become the single-point update. -/
theorem trySet_ok_shape (o : Obj) (n : String) (v : Value) (o2 : Obj)
    (h : trySet o n v = Except.ok o2) :
    o2.schema = o.schema ∧ o2.values = setPair o.values n v := by
  unfold trySet at h
  split at h
  · exact absurd h (by simp)
  · split at h
    · exact absurd h (by simp)
    · split at h
      · injection h with h2
        subst h2
        exact ⟨rfl, rfl⟩
      · exact absurd h (by simp)

/-- A set on an attribute declared constant is rejected internally. -/
theorem trySet_const (o : Obj) (n : String) (v : Value) (a : Attr)
    (ha : findAttr o.schema n = some a) (hc : a.constant = true) :
    trySet o n v = Except.error SetError.constViolation := by
  unfold trySet
  rw [ha]
  simp [hc]

/-- A set whose candidate value fails validation is rejected internally. -/
theorem trySet_invalid (o : Obj) (n : String) (v : Value) (a : Attr)
    (ha : findAttr o.schema n = some a) (hv : a.domain.validate v = false) :
    (∃ e, trySet o n v = Except.error e) := by
  unfold trySet
  rw [ha]
  by_cases hc : a.constant
  · exact ⟨SetError.constViolation, by simp [hc]⟩
  · exact ⟨SetError.domainViolation, by simp [hc, hv]⟩

/-- A set that validates against a non-constant attribute succeeds
internally, producing exactly the single-point update. -/
theorem trySet_valid (o : Obj) (n : String) (v : Value) (a : Attr)
    (ha : findAttr o.schema n = some a) (hc : a.constant = false)
    (hv : a.domain.validate v = true) :
    trySet o n v = Except.ok { o with values := setPair o.values n v } := by
  unfold trySet
  rw [ha]
  simp [hc, hv]

/-- A rejected internal set leaves the live system untouched and reports
false. -/
theorem setSys_error (s : Sys) (n : String) (v : Value) (e : SetError)
    (h : trySet s.obj n v = Except.error e) :
    setSys s n v = (s, false) := by
  unfold setSys
  rw [h]

/-- A rejected set leaves the whole bound pair untouched. -/
theorem pushValue_reject (b : Bound) (v : Value) (e : SetError)
    (h : trySet b.sys.obj b.attrName v = Except.error e) :
    pushValue b v = b := by
  unfold pushValue
  rw [setSys_error b.sys b.attrName v e h]
  simp

/-- A set never changes the schema of the live system. -/
theorem setSys_schema (s : Sys) (n : String) (v : Value) :
    (setSys s n v).1.obj.schema = s.obj.schema := by
  unfold setSys
  cases h : trySet s.obj n v with
  | ok o2 => exact (trySet_ok_shape s.obj n v o2 h).1
  | error e => rfl

/-- No sequence of attempted sets changes the schema. -/
theorem applySets_schema (ops : List (String × Value)) (s : Sys) :
    (applySets s ops).obj.schema = s.obj.schema := by
  induction ops generalizing s with
  | nil => rfl
  | cons op t ih =>
    calc (applySets s (op :: t)).obj.schema
        = (applySets (setSys s op.1 op.2).1 t).obj.schema := rfl
      _ = (setSys s op.1 op.2).1.obj.schema := ih _
      _ = s.obj.schema := setSys_schema s op.1 op.2

/-- A single attempted set, on any attribute with any value, leaves the
stored value of a constant-flagged attribute unchanged. -/
theorem getValue_setSys_const (s : Sys) (cname n : String) (v : Value)
    (a : Attr) (ha : findAttr s.obj.schema cname = some a)
    (hc : a.constant = true) :
    getValue (setSys s n v).1.obj cname = getValue s.obj cname := by
  unfold setSys
  cases h : trySet s.obj n v with
  | error e => rfl
  | ok o2 =>
    obtain ⟨_, hvals⟩ := trySet_ok_shape s.obj n v o2 h
    by_cases hn : cname = n
    · subst hn
      rw [trySet_const s.obj cname v a ha hc] at h
      exact absurd h (by simp)
    · show getValue o2 cname = getValue s.obj cname
      unfold getValue
      rw [hvals]
      exact lookup_setPair_ne s.obj.values n cname v hn

/-- Attribute lookup distributes over schema concatenation. -/
theorem findAttr_append (l1 l2 : List Attr) (n : String) :
    findAttr (l1 ++ l2) n
      = (match findAttr l1 n with
         | some a => some a
         | none => findAttr l2 n) := by
  induction l1 with
  | nil => rfl
  | cons a t ih =>
    by_cases h : a.name = n
    · simp [findAttr, h]
    · simp [findAttr, h, ih]

/-- Removing from the base schema the attributes a subclass overrides does
not change lookup of a name the subclass does not override. -/
theorem findAttr_filter_not_overridden (base ov : List Attr) (n : String)
    (hn : findAttr ov n = none) :
    findAttr (base.filter (fun a => (findAttr ov a.name).isNone)) n
      = findAttr base n := by
  induction base with
  | nil => rfl
  | cons a t ih =>
    by_cases h : a.name = n
    · have hov : (findAttr ov a.name).isNone = true := by rw [h, hn]; rfl
      simp [List.filter_cons, hov, findAttr, h, hn]
    · by_cases hkeep : (findAttr ov a.name).isNone = true
      · simp [List.filter_cons, hkeep, findAttr, h, ih]
      · simp [List.filter_cons, hkeep, findAttr, h, ih]

/-- Lookup in a merged subclass schema of a name the subclass does not
override falls through to the base schema. -/
theorem findAttr_merge (base ov : List Attr) (n : String)
    (hn : findAttr ov n = none) :
    findAttr (mergeSchema base ov) n = findAttr base n := by
  unfold mergeSchema
  rw [findAttr_append, hn]
  exact findAttr_filter_not_overridden base ov n hn

/-- A successful internal set yields the updated instance, notifies the
watchers of the attribute, and reports true. -/
theorem setSys_ok (s : Sys) (n : String) (v : Value) (o2 : Obj)
    (h : trySet s.obj n v = Except.ok o2) :
    setSys s n v
      = ({ s with obj := o2, log := s.log ++ notify s.watchers n v }, true) := by
  unfold setSys
  rw [h]

/-- An accepted push updates the instance and the widget's display in one
step. -/
theorem pushValue_accept (b : Bound) (v : Value) (o2 : Obj)
    (h : trySet b.sys.obj b.attrName v = Except.ok o2) :
    pushValue b v
      = { sys := { obj := o2,
                   watchers := b.sys.watchers,
                   log := b.sys.log ++ notify b.sys.watchers b.attrName v },
          attrName := b.attrName,
          widget := { display := v, width := b.widget.width } } := by
  unfold pushValue
  rw [setSys_ok b.sys b.attrName v o2 h]
  simp

/-- Occurrence counting unfolded over a cons cell. -/
theorem countOcc_cons {α : Type} [DecidableEq α] (x : α) (l : List α)
    (e : α) :
    countOcc (x :: l) e = countOcc l e + (if x = e then 1 else 0) := by
  unfold countOcc
  rw [List.countP_cons]
  by_cases h : x = e
  · simp [h]
  · simp [h]

/-- Each registration of a watcher of the set attribute contributes exactly
one invocation record carrying the new value. -/
theorem countOcc_notify (ws : List Watcher) (n : String) (v : Value)
    (w : Watcher) (hw : w.attr = n) :
    countOcc (notify ws n v) (w.id, n, v) = countOcc ws w := by
  induction ws with
  | nil => rfl
  | cons u t ih =>
    by_cases h : u.attr = n
    · rw [show notify (u :: t) n v = (u.id, n, v) :: notify t n v from by
        simp [notify, h]]
      rw [countOcc_cons, countOcc_cons, ih]
      by_cases hid : u.id = w.id
      · have hu : u = w := by
          cases u
          cases w
          simp only at h hid hw
          simp [hw, h, hid]
        simp [hu]
      · have hu : u ≠ w := fun hc => hid (by rw [hc])
        have hpair : ¬ (((u.id, n, v) : Nat × String × Value)
            = (w.id, n, v)) := by
          simp [hid]
        simp [hu, hpair]
    · rw [show notify (u :: t) n v = notify t n v from by simp [notify, h]]
      rw [countOcc_cons, ih]
      have hu : u ≠ w := fun hc => h (by rw [hc, hw])
      simp [hu]

/-- No sequence of attempted sets, on any attributes with any values,
changes the stored value of a constant-flagged attribute. -/
theorem getValue_applySets_const (ops : List (String × Value)) (s : Sys)
    (cname : String) (a : Attr)
    (ha : findAttr s.obj.schema cname = some a) (hc : a.constant = true) :
    getValue (applySets s ops).obj cname = getValue s.obj cname := by
  induction ops generalizing s with
  | nil => rfl
  | cons op t ih =>
    have ha2 : findAttr (setSys s op.1 op.2).1.obj.schema cname = some a := by
      rw [setSys_schema]
      exact ha
    calc getValue (applySets s (op :: t)).obj cname
        = getValue (applySets (setSys s op.1 op.2).1 t).obj cname := rfl
      _ = getValue (setSys s op.1 op.2).1.obj cname := ih _ ha2
      _ = getValue s.obj cname := getValue_setSys_const s cname op.1 op.2 a ha hc

/-- C1: for every bound attribute/widget pair and every candidate value the
declared domain rejects, a set attempted from either side — a user edit
through the widget or a programmatic set on the attribute — is rejected and
the whole bound state (stored value and displayed value alike) is exactly
what it was before the attempt. -/
theorem invalid_set_rejected_both_sides (b : Bound) (v : Value) (a : Attr)
    (ha : findAttr b.sys.obj.schema b.attrName = some a)
    (hv : a.domain.validate v = false) :
    userEdit b v = b ∧ progSet b v = b := by
  obtain ⟨e, he⟩ := trySet_invalid b.sys.obj b.attrName v a ha hv
  exact ⟨pushValue_reject b v e he, pushValue_reject b v e he⟩

/-- Editing the select_string widget to the out-of-domain value "blue" is
rejected from both sides and the bound state keeps displaying and storing
"yellow". -/
theorem invalid_set_rejected_both_sides_witness :
    userEdit selectBound (Value.str "blue") = selectBound ∧
    progSet selectBound (Value.str "blue") = selectBound :=
  invalid_set_rejected_both_sides selectBound (Value.str "blue")
    selectStringAttr (by rfl) (by rfl)

/-- C2: for every bound attribute and every candidate value the declared
domain accepts on a non-constant attribute, a set from either side
succeeds: the stored value becomes the new value and the bound widget's
displayed value follows it. -/
theorem valid_set_updates_both_sides (b : Bound) (v : Value) (a : Attr)
    (ha : findAttr b.sys.obj.schema b.attrName = some a)
    (hc : a.constant = false)
    (hv : a.domain.validate v = true)
    (hs : synced b) :
    getValue (progSet b v).sys.obj b.attrName = some v ∧
    (progSet b v).widget.display = v ∧
    getValue (userEdit b v).sys.obj b.attrName = some v ∧
    (userEdit b v).widget.display = v := by
  have htr := trySet_valid b.sys.obj b.attrName v a ha hc hv
  have hget : getValue (pushValue b v).sys.obj b.attrName = some v := by
    rw [pushValue_accept b v _ htr]
    show lookupValue (setPair b.sys.obj.values b.attrName v) b.attrName
      = some v
    rw [lookup_setPair_same]
    unfold synced getValue at hs
    rw [hs]
    rfl
  have hdisp : (pushValue b v).widget.display = v := by
    rw [pushValue_accept b v _ htr]
  exact ⟨hget, hdisp, hget, hdisp⟩

/-- Setting the attribute bounded by (7.5, 10) with default 8.2 to the
in-bounds value 9 stores 9 and displays 9; the out-of-bounds value 11
leaves the bound state exactly as it was, still at 8.2. -/
theorem valid_set_updates_both_sides_witness :
    (getValue (progSet floatBound (Value.num { num := 9, den := 1 })).sys.obj
        "float_with_hard_bounds" = some (Value.num { num := 9, den := 1 }) ∧
     (progSet floatBound (Value.num { num := 9, den := 1 })).widget.display
        = Value.num { num := 9, den := 1 } ∧
     getValue (userEdit floatBound (Value.num { num := 9, den := 1 })).sys.obj
        "float_with_hard_bounds" = some (Value.num { num := 9, den := 1 }) ∧
     (userEdit floatBound (Value.num { num := 9, den := 1 })).widget.display
        = Value.num { num := 9, den := 1 }) ∧
    progSet floatBound (Value.num { num := 11, den := 1 }) = floatBound :=
  ⟨valid_set_updates_both_sides floatBound (Value.num { num := 9, den := 1 })
      floatHardAttr (by rfl) (by rfl) (by rfl) (by rfl),
   by decide⟩

/-- C3: a constant-flagged attribute rejects every set attempted after
construction — after any sequence of attempted sets, a further set on it
fails with the system unchanged, and its stored value is still the value it
had at construction. -/
theorem constant_attr_always_rejects (schema : List Attr) (cname : String)
    (a : Attr) (ops : List (String × Value))
    (ha : findAttr schema cname = some a) (hc : a.constant = true) :
    (∀ v, setSys (applySets (mkSys schema) ops) cname v
        = (applySets (mkSys schema) ops, false)) ∧
    getValue (applySets (mkSys schema) ops).obj cname
      = getValue (mkSys schema).obj cname := by
  have ha2 : findAttr (applySets (mkSys schema) ops).obj.schema cname
      = some a := by
    rw [applySets_schema]
    exact ha
  constructor
  · intro v
    exact setSys_error _ cname v SetError.constViolation
      (trySet_const _ cname v a ha2 hc)
  · exact getValue_applySets_const ops (mkSys schema) cname a ha hc

/-- After setting y (in or out of domain) and another attribute, a further
set on the constant attribute y is still rejected with the system
unchanged, and y still stores its construction-time value. -/
theorem constant_attr_always_rejects_witness :
    setSys (applySets (mkSys exampleSchema)
        [("y", Value.str "edited"), ("x", Value.num { num := 1, den := 1 })])
      "y" (Value.str "again")
      = (applySets (mkSys exampleSchema)
          [("y", Value.str "edited"), ("x", Value.num { num := 1, den := 1 })],
         false) ∧
    getValue (applySets (mkSys exampleSchema)
        [("y", Value.str "edited"), ("x", Value.num { num := 1, den := 1 })]).obj
      "y" = getValue (mkSys exampleSchema).obj "y" :=
  ⟨(constant_attr_always_rejects exampleSchema "y" yAttr
      [("y", Value.str "edited"), ("x", Value.num { num := 1, den := 1 })]
      (by rfl) (by rfl)).1 (Value.str "again"),
   (constant_attr_always_rejects exampleSchema "y" yAttr
      [("y", Value.str "edited"), ("x", Value.num { num := 1, den := 1 })]
      (by rfl) (by rfl)).2⟩

/-- C4: a successful set appends to the invocation log, synchronously and
in registration order, exactly one record per watcher of the set attribute,
each carrying the new value — one invocation per registration, as the
occurrence counts show — while a rejected set appends nothing. -/
theorem callback_once_per_successful_set (s : Sys) (n : String) (v : Value) :
    ((setSys s n v).2 = true →
       (setSys s n v).1.log = s.log ++ notify s.watchers n v) ∧
    ((setSys s n v).2 = false → (setSys s n v).1.log = s.log) ∧
    (∀ w : Watcher, w.attr = n →
       countOcc (notify s.watchers n v) (w.id, n, v) = countOcc s.watchers w) := by
  refine ⟨?_, ?_, ?_⟩
  · intro h
    cases htr : trySet s.obj n v with
    | ok o2 => rw [setSys_ok s n v o2 htr]
    | error e =>
      rw [setSys_error s n v e htr] at h
      exact absurd h (by simp)
  · intro h
    cases htr : trySet s.obj n v with
    | ok o2 =>
      rw [setSys_ok s n v o2 htr] at h
      exact absurd h (by simp)
    | error e => rw [setSys_error s n v e htr]
  · intro w hw
    exact countOcc_notify s.watchers n v w hw

/-- With one callback subscribed to x, a successful set of x appends its
invocation records to the log, and the subscribed callback accounts for
exactly one record carrying the new value. -/
theorem callback_once_per_successful_set_witness :
    (setSys (subscribe (mkSys exampleSchema) "x" 7) "x"
        (Value.num { num := 1, den := 1 })).1.log
      = (subscribe (mkSys exampleSchema) "x" 7).log
          ++ notify (subscribe (mkSys exampleSchema) "x" 7).watchers "x"
               (Value.num { num := 1, den := 1 }) ∧
    countOcc (notify (subscribe (mkSys exampleSchema) "x" 7).watchers "x"
        (Value.num { num := 1, den := 1 }))
      (7, "x", Value.num { num := 1, den := 1 })
      = countOcc (subscribe (mkSys exampleSchema) "x" 7).watchers
          { attr := "x", id := 7 } :=
  ⟨(callback_once_per_successful_set (subscribe (mkSys exampleSchema) "x" 7)
      "x" (Value.num { num := 1, den := 1 })).1 (by rfl),
   (callback_once_per_successful_set (subscribe (mkSys exampleSchema) "x" 7)
      "x" (Value.num { num := 1, den := 1 })).2.2
     { attr := "x", id := 7 } rfl⟩

/-- C5: the convergence invariant — a widget displaying its bound
attribute's stored value still displays it after any single change
attempted from either side, whether the change is accepted or rejected. -/
theorem bound_pair_converges (b : Bound) (v : Value) (hs : synced b) :
    synced (userEdit b v) ∧ synced (progSet b v) := by
  have key : synced (pushValue b v) := by
    cases htr : trySet b.sys.obj b.attrName v with
    | error e =>
      rw [pushValue_reject b v e htr]
      exact hs
    | ok o2 =>
      obtain ⟨hsch, hvals⟩ := trySet_ok_shape _ _ _ _ htr
      rw [pushValue_accept b v o2 htr]
      show getValue o2 b.attrName = some v
      unfold getValue
      rw [hvals, lookup_setPair_same]
      unfold synced getValue at hs
      rw [hs]
      rfl
  exact ⟨key, key⟩

/-- The select_string pair, in sync at "yellow", is still in sync after an
accepted edit to "green" and after a rejected edit to "blue". -/
theorem bound_pair_converges_witness :
    (synced (userEdit selectBound (Value.str "green")) ∧
     synced (progSet selectBound (Value.str "green"))) ∧
    (synced (userEdit selectBound (Value.str "blue")) ∧
     synced (progSet selectBound (Value.str "blue"))) :=
  ⟨bound_pair_converges selectBound (Value.str "green") (by rfl),
   bound_pair_converges selectBound (Value.str "blue") (by rfl)⟩

/-- C6: an attribute a subclass does not override locally is looked up in
the merged subclass schema exactly as declared in the base class — same
domain, default, constant flag and precedence — and get and set on a
subclass instance behave exactly as on a base-class instance. -/
theorem inherited_attr_behaves_identically (base ov : List Attr)
    (n : String) (hn : findAttr ov n = none) :
    findAttr (mergeSchema base ov) n = findAttr base n ∧
    (∀ vs : List (String × Value),
       getValue { schema := mergeSchema base ov, values := vs } n
         = getValue { schema := base, values := vs } n) ∧
    (∀ (vs : List (String × Value)) (v : Value),
       (setAttr { schema := mergeSchema base ov, values := vs } n v).1.values
         = (setAttr { schema := base, values := vs } n v).1.values ∧
       (setAttr { schema := mergeSchema base ov, values := vs } n v).2
         = (setAttr { schema := base, values := vs } n v).2) := by
  have hf := findAttr_merge base ov n hn
  refine ⟨hf, fun vs => rfl, fun vs v => ?_⟩
  unfold setAttr trySet
  dsimp only
  rw [hf]
  cases findAttr base n with
  | none => exact ⟨rfl, rfl⟩
  | some a =>
    by_cases hc : a.constant
    · simp [hc]
    · by_cases hv : a.domain.validate v
      · simp [hc, hv]
      · simp [hc, hv]

/-- num_int is declared in BaseClass only; looking it up through the
Example schema yields the BaseClass declaration, and a set on an Example
instance changes the stored values and reports success exactly as on a
BaseClass instance. -/
theorem inherited_attr_behaves_identically_witness :
    findAttr (mergeSchema baseClassSchema exampleExtra) "num_int"
      = findAttr baseClassSchema "num_int" ∧
    (setAttr { schema := mergeSchema baseClassSchema exampleExtra,
               values := [("num_int", Value.num { num := 50000, den := 1 })] }
        "num_int" (Value.num { num := 60000, den := 1 })).1.values
      = (setAttr { schema := baseClassSchema,
                   values := [("num_int", Value.num { num := 50000, den := 1 })] }
          "num_int" (Value.num { num := 60000, den := 1 })).1.values ∧
    (setAttr { schema := mergeSchema baseClassSchema exampleExtra,
               values := [("num_int", Value.num { num := 50000, den := 1 })] }
        "num_int" (Value.num { num := 60000, den := 1 })).2
      = (setAttr { schema := baseClassSchema,
                   values := [("num_int", Value.num { num := 50000, den := 1 })] }
          "num_int" (Value.num { num := 60000, den := 1 })).2 :=
  ⟨(inherited_attr_behaves_identically baseClassSchema exampleExtra
      "num_int" (by rfl)).1,
   ((inherited_attr_behaves_identically baseClassSchema exampleExtra
      "num_int" (by rfl)).2.2
     [("num_int", Value.num { num := 50000, den := 1 })]
     (Value.num { num := 60000, den := 1 })).1,
   ((inherited_attr_behaves_identically baseClassSchema exampleExtra
      "num_int" (by rfl)).2.2
     [("num_int", Value.num { num := 50000, den := 1 })]
     (Value.num { num := 60000, den := 1 })).2⟩

/-- C7: a layout container holds exactly the children it was constructed
with, in that order, and each member inherits the container's shared
presentation option unless it overrides it locally; the container carries
no other state. -/
theorem layout_preserves_children_and_width (cs : List Widget)
    (w : Option Nat) (m : Widget) :
    (mkWidgetBox cs w).objects = cs ∧
    (m.width = none → effectiveWidth (mkWidgetBox cs w) m = w) ∧
    (∀ wm, m.width = some wm →
       effectiveWidth (mkWidgetBox cs w) m = some wm) := by
  refine ⟨rfl, ?_, ?_⟩
  · intro h
    unfold effectiveWidth
    rw [h]
    rfl
  · intro wm h
    unfold effectiveWidth
    rw [h]

/-- The WidgetBox of the widgets notebook keeps its two children in order;
the text widget inherits the shared width 200 while the slider keeps its
own width 200. -/
theorem layout_preserves_children_and_width_witness :
    (mkWidgetBox [textInputW, sliderW] (some 200)).objects
      = [textInputW, sliderW] ∧
    effectiveWidth (mkWidgetBox [textInputW, sliderW] (some 200)) textInputW
      = some 200 ∧
    effectiveWidth (mkWidgetBox [textInputW, sliderW] (some 200)) sliderW
      = some 200 :=
  ⟨(layout_preserves_children_and_width [textInputW, sliderW] (some 200)
      textInputW).1,
   (layout_preserves_children_and_width [textInputW, sliderW] (some 200)
      textInputW).2.1 rfl,
   (layout_preserves_children_and_width [textInputW, sliderW] (some 200)
      sliderW).2.2 200 rfl⟩

/-- C8: every failing set is handled locally at the accessor boundary: the
accessor always returns a result instead of propagating the internal
error, reporting the unchanged instance with a false flag on any failure
and the updated instance with a true flag on success. -/
theorem set_failure_handled_locally (o : Obj) (n : String) (v : Value) :
    (∀ e, trySet o n v = Except.error e → setAttr o n v = (o, false)) ∧
    (∀ o2, trySet o n v = Except.ok o2 → setAttr o n v = (o2, true)) := by
  constructor
  · intro e he
    unfold setAttr
    rw [he]
  · intro o2 ho
    unfold setAttr
    rw [ho]

/-- The out-of-bounds set num_int := 200000 fails with a domain violation,
and the accessor returns the unchanged instance with a false flag instead
of raising. -/
theorem set_failure_handled_locally_witness :
    setAttr (mkObj exampleSchema) "num_int"
        (Value.num { num := 200000, den := 1 })
      = (mkObj exampleSchema, false) :=
  (set_failure_handled_locally (mkObj exampleSchema) "num_int"
    (Value.num { num := 200000, den := 1 })).1
    SetError.domainViolation (by rfl)

/-- C9: the automatic widget display of a schema omits every attribute
whose precedence is negative and shows every attribute whose precedence is
non-negative. -/
theorem negative_precedence_omitted (schema : List Attr) (a : Attr)
    (hmem : a ∈ schema) :
    (a.precedence.num < 0 → a ∉ displayedAttrs schema) ∧
    (0 ≤ a.precedence.num → a ∈ displayedAttrs schema) := by
  constructor
  · intro hneg hin
    unfold displayedAttrs at hin
    have h2 := (List.mem_filter.mp hin).2
    simp at h2
    omega
  · intro hpos
    unfold displayedAttrs
    exact List.mem_filter.mpr ⟨hmem, by simp [hpos]⟩

/-- hidden_parameter (precedence -1) is omitted from the BaseClass display
while unbounded_float (precedence 0) is shown. -/
theorem negative_precedence_omitted_witness :
    hiddenParameterAttr ∉ displayedAttrs baseClassSchema ∧
    unboundedFloatAttr ∈ displayedAttrs baseClassSchema :=
  ⟨(negative_precedence_omitted baseClassSchema hiddenParameterAttr
      (by decide)).1 (by decide),
   (negative_precedence_omitted baseClassSchema unboundedFloatAttr
      (by decide)).2 (by decide)⟩

/-- C10: triggering the record_timestamp action invokes the stored callable
exactly once on the owning instance, whose only effect is appending one
timestamp to the instance's list, and the action attribute's stored
callable is unchanged by the trigger. -/
theorem action_triggers_callable_once (x : ExampleInst) (now : Nat)
    (h : x.recordTimestamp = recordTimestampFn) :
    (triggerAction now x).timestamps = x.timestamps ++ [now] ∧
    (triggerAction now x).recordTimestamp = x.recordTimestamp := by
  unfold triggerAction
  rw [h]
  exact ⟨rfl, rfl⟩

/-- Triggering the action once on a fresh instance appends exactly one
timestamp and leaves the stored callable in place. -/
theorem action_triggers_callable_once_witness :
    (triggerAction 42
        { timestamps := [], recordTimestamp := recordTimestampFn }).timestamps
      = [] ++ [42] ∧
    (triggerAction 42
        { timestamps := [], recordTimestamp := recordTimestampFn }).recordTimestamp
      = ({ timestamps := [], recordTimestamp := recordTimestampFn }
          : ExampleInst).recordTimestamp :=
  action_triggers_callable_once
    { timestamps := [], recordTimestamp := recordTimestampFn } 42 rfl

end Panel
